import Mathlib

/-!
Verification development for the `openrpc-gen` code generator.

The generator (`src/gen.rs`) renders a resolved OpenRPC type graph
(`crate::parse::File`) into Rust source text, driven by a configuration
(`crate::config::Config`).  We embed the generator shallowly: every
`writeln!` call becomes one (or, for multi-line format strings, several)
entries of a `List String` of output lines, and each Rust function of
`gen.rs` becomes a Lean function producing such a list.  The data model
(`crate::parse`, `crate::config`) is not part of `src/`; its shapes are
reconstructed from the spec's data-model section and from the fields that
`gen.rs` reads.

Rust string formatting braces `{}` are written with the escapes `\x7b\x7d`
inside Lean string literals, and the Rust lifetime apostrophe as `\x27`.
-/

namespace OpenrpcGen

/-- A polymorphic reference to a type (`crate::parse::TypeRef`).  The
`integer` variant carries size information in the parse module, which the
generator matches with `Integer { .. }` and never reads, so it is omitted
here. -/
inductive TypeRef where
  | array (inner : TypeRef)
  | boolean
  | integer
  | null
  | number
  | string
  | keyword (val : String)
  | ref (path : String)
  | externalRef (name : String)
  deriving DecidableEq, Repr

/-- Wire representation of an enum (`crate::parse::EnumTag`). -/
inductive EnumTag where
  | normal
  | tagged (tag : String)
  | untagged
  deriving DecidableEq, Repr

/-- A struct field (`crate::parse::Field`): the generator reads `path`,
`documentation`, `ty`, `required`, `flatten`, `name` and `name_in_json`. -/
structure Field where
  path : String
  documentation : Option String
  ty : TypeRef
  required : Bool
  flatten : Bool
  name : String
  name_in_json : String
  deriving DecidableEq, Repr

/-- An enum variant (`crate::parse::Variant`). -/
structure Variant where
  path : String
  documentation : Option String
  name : String
  name_in_json : Option String
  ty : Option TypeRef
  deriving DecidableEq, Repr

/-- Payload of a struct type: its fields, in declaration order (the Rust
side stores an ordered map and iterates `s.fields.values()`). -/
structure StructDef where
  fields : List Field
  deriving DecidableEq, Repr

/-- Payload of an enum type: its tag policy, variants in declaration order
(`e.variants.values()`), and the `copy` flag (the spec's `is_copyable`). -/
structure EnumDef where
  tag : EnumTag
  variants : List Variant
  copy : Bool
  deriving DecidableEq, Repr

/-- The kind of a type definition (`crate::parse::TypeKind`). -/
inductive TypeKind where
  | alias (ty : TypeRef)
  | struct (s : StructDef)
  | enum (e : EnumDef)
  deriving DecidableEq, Repr

/-- A named type definition (`crate::parse::TypeDef`). -/
structure TypeDef where
  path : String
  name : String
  documentation : Option String
  kind : TypeKind
  deriving DecidableEq, Repr

/-- Parameter passing convention of a method (`open_rpc::ParamStructure`). -/
inductive ParamStructure where
  | byName
  | byPosition
  | either
  deriving DecidableEq, Repr

/-- A method parameter (`crate::parse::Param`): the generator reads `name`,
`name_in_json`, `documentation`, `ty` and `required`. -/
structure Param where
  name : String
  name_in_json : String
  documentation : Option String
  ty : TypeRef
  required : Bool
  deriving DecidableEq, Repr

/-- The result declaration of a method (`method.result` in `gen.rs`). -/
structure MethodResult where
  documentation : Option String
  ty : TypeRef
  deriving DecidableEq, Repr

/-- An RPC method (`crate::parse::Method`). -/
structure Method where
  name : String
  documentation : Option String
  params : List Param
  result : Option MethodResult
  param_structure : ParamStructure
  deriving DecidableEq, Repr

/-- The root of the type graph (`crate::parse::File`): an insertion-ordered
map from schema path to type definition, modelled as an association list
(`file.types.values()` iterates in insertion order), plus the method
sequence. -/
structure File where
  types : List (String × TypeDef)
  methods : List Method
  deriving DecidableEq, Repr

/-- The primitive spelling table (`config.primitives`): literal spellings
for the scalar primitives and single-slot `\x7b\x7d` templates for the
array and optional wrappers. -/
structure Primitives where
  array : String
  boolean : String
  integer : String
  null : String
  number : String
  string : String
  optional : String
  deriving DecidableEq, Repr

/-- Generation options (`config.generation`) read by `gen.rs`. -/
structure Generation where
  additional_imports : List String
  global_derives : List String
  derives : List (String × List String)
  method_name_prefix : Option String
  method_name_constants : Bool
  result_types : Bool
  param_types : Bool
  use_core : Bool
  deriving DecidableEq, Repr

/-- The configuration (`crate::config::Config`) as read by `gen.rs`.

The field `attributes` is Modelled from the spec: `TypeRef::attributes`
lives in the crate's parse module, which is not under `src/`; the spec only
says that "additional per-type serialization attributes may be contributed
by the field's resolved type (an extensibility hook, not specified further
here since it is configuration-driven)", so we model it as an opaque
configuration-supplied assignment of attribute lines to type references. -/
structure Config where
  primitives : Primitives
  generation : Generation
  debug_path : Bool
  attributes : TypeRef → List String

/-- The generator state (`Ctx` in `gen.rs`): the file being generated and
the configuration. -/
structure Ctx where
  file : File
  config : Config

/-- The template substitution slot used by `config.primitives.array` and
`config.primitives.optional` (the Rust code calls `.replace("{}", inner)`). -/
def slot : String := "\x7b\x7d"

/-- Fuel-driven worker for `string_replace`: scans left to right, and at
each position either replaces a non-overlapping occurrence of the pattern
or keeps one character.  Every step consumes at least one character when
the pattern is non-empty, so fuel equal to the input length suffices. -/
def replaceAllAux (pat rep : List Char) : Nat → List Char → List Char
  | 0, s => s
  | _ + 1, [] => []
  | fuel + 1, c :: s =>
    if pat ≠ [] ∧ pat.isPrefixOf (c :: s) then
      rep ++ replaceAllAux pat rep fuel ((c :: s).drop pat.length)
    else c :: replaceAllAux pat rep fuel s

/-- Model of Rust's `str::replace`: replaces every non-overlapping
occurrence of the pattern, scanning left to right.  (For the empty
pattern, which the generator never passes — the pattern is always the
`\x7b\x7d` slot — this model returns the input unchanged.) -/
def string_replace (s pat rep : String) : String :=
  String.mk (replaceAllAux pat.data rep.data s.data.length s.data)

/-- The branch of `Ctx::type_ref_name` taken for a required reference
site (the `match r` body of the Rust function): primitive spellings,
template substitution for arrays, the keyword comment spelling, the type
table lookup for `Ref` with the `BrokenReference` placeholder on a miss,
and verbatim external names. -/
def Ctx.type_ref_name_req (ctx : Ctx) : TypeRef → String
  | .array inner =>
      string_replace ctx.config.primitives.array slot (ctx.type_ref_name_req inner)
  | .boolean => ctx.config.primitives.boolean
  | .integer => ctx.config.primitives.integer
  | .null => ctx.config.primitives.null
  | .number => ctx.config.primitives.number
  | .string => ctx.config.primitives.string
  | .keyword val => ctx.config.primitives.string ++ " /* " ++ val ++ " */"
  | .ref path =>
      match (ctx.file.types.lookup path) with
      | some ty => ty.name
      | none => "BrokenReference /* " ++ path ++ " */"
  | .externalRef name => name

/-- The reference resolver (`Ctx::type_ref_name` in `gen.rs`): produces
the target-language spelling of a `TypeRef` at a use site with the given
`required` flag.  The Rust function first tests `!required` and, in that
case, resolves the same reference as required and wraps the result in the
optional template; the required case is `type_ref_name_req`. -/
def Ctx.type_ref_name (ctx : Ctx) (r : TypeRef) (required : Bool) : String :=
  if required then ctx.type_ref_name_req r
  else string_replace ctx.config.primitives.optional slot (ctx.type_ref_name_req r)

/-- Word-boundary delimiters of the default `convert_case` configuration
(the external crate providing `to_case`): underscore, hyphen, space. -/
def isDelim (c : Char) : Bool := c = '_' || c = '-' || c = ' '

/-- Splits a character stream into words at the default `convert_case`
boundaries: delimiters (which are dropped), a lower-or-digit to upper
transition, the last upper of an acronym run followed by a lower, and
letter-digit transitions.  The first argument is the reversed current
word. -/
def splitWordsAux : List Char → List Char → List (List Char)
  | cur, [] => [cur.reverse]
  | cur, c :: rest =>
    if isDelim c then cur.reverse :: splitWordsAux [] rest
    else if c.isUpper then
      match cur with
      | [] => splitWordsAux [c] rest
      | p :: _ =>
        if p.isLower || p.isDigit then cur.reverse :: splitWordsAux [c] rest
        else
          match rest with
          | n :: _ =>
            if n.isLower then cur.reverse :: splitWordsAux [c] rest
            else splitWordsAux (c :: cur) rest
          | [] => splitWordsAux (c :: cur) rest
    else if c.isDigit then
      match cur with
      | [] => splitWordsAux [c] rest
      | p :: _ =>
        if p.isDigit then splitWordsAux (c :: cur) rest
        else cur.reverse :: splitWordsAux [c] rest
    else
      match cur with
      | [] => splitWordsAux [c] rest
      | p :: _ =>
        if p.isDigit then cur.reverse :: splitWordsAux [c] rest
        else splitWordsAux (c :: cur) rest

/-- The words of an identifier, per the `convert_case` model. -/
def words (s : String) : List String :=
  ((splitWordsAux [] s.data).filter (fun w => !w.isEmpty)).map (fun w => String.mk w)

/-- Uppercases the first character of a word and lowercases the rest
(`convert_case`'s per-word transform for Pascal case). -/
def capitalize (w : String) : String :=
  match w.data with
  | [] => ""
  | c :: cs => String.mk (c.toUpper :: cs.map Char.toLower)

/-- Model of `to_case(Case::ScreamingSnake)` from the `convert_case`
crate: words uppercased and joined with underscores. -/
def screaming_snake (s : String) : String :=
  String.intercalate "_" ((words s).map (fun w => String.mk (w.data.map Char.toUpper)))

/-- Model of `to_case(Case::Pascal)` from the `convert_case` crate: words
capitalized and concatenated. -/
def pascal (s : String) : String :=
  String.join ((words s).map capitalize)

/-- A single derive attribute line, as written by `gen_type` for the
configured global and per-path derives. -/
def deriveLine (d : String) : String := "#[derive(" ++ d ++ ")]"

/-- The derive directives configured for one schema path
(`ctx.config.generation.derives.get(&*ty.path)` in `gen_type`). -/
def path_derives (ctx : Ctx) (path : String) : List String :=
  match List.lookup path ctx.config.generation.derives with
  | some ds => ds
  | none => []

/-- The debug-path comment and documentation comment written before every
type declaration by `gen_type`. -/
def type_header (ctx : Ctx) (ty : TypeDef) : List String :=
  (if ctx.config.debug_path then ["// " ++ ty.path] else []) ++
  (match ty.documentation with | some doc => ["/// " ++ doc] | none => [])

/-- The lines written for one struct field by `gen_type`: debug comment,
documentation, `#[serde(default)]` for non-required fields,
`#[serde(flatten)]`, a rename attribute when the wire name differs, the
attributes contributed by the field type, then the field itself. -/
def field_lines (ctx : Ctx) (f : Field) : List String :=
  (if ctx.config.debug_path then ["    // " ++ f.path] else []) ++
  (match f.documentation with | some doc => ["    /// " ++ doc] | none => []) ++
  (if f.required then [] else ["    #[serde(default)]"]) ++
  (if f.flatten then ["    #[serde(flatten)]"] else []) ++
  (if f.name ≠ f.name_in_json then ["    #[serde(rename = \"" ++ f.name_in_json ++ "\")]"] else []) ++
  (ctx.config.attributes f.ty).map (fun attr => "    " ++ attr) ++
  ["    pub " ++ f.name ++ ": " ++ ctx.type_ref_name f.ty f.required ++ ","]

/-- The lines written for one enum variant by `gen_type`. -/
def variant_lines (ctx : Ctx) (v : Variant) : List String :=
  (if ctx.config.debug_path then ["    // " ++ v.path] else []) ++
  (match v.documentation with | some doc => ["    /// " ++ doc] | none => []) ++
  (match v.name_in_json with
   | some nij => if nij ≠ v.name then ["    #[serde(rename = \"" ++ nij ++ "\")]"] else []
   | none => []) ++
  (match v.ty with
   | some inner => ["    " ++ v.name ++ "(" ++ ctx.type_ref_name inner true ++ "),"]
   | none => ["    " ++ v.name ++ ","])

/-- The serde tag directive written for an enum's wire representation. -/
def enum_tag_lines (tag : EnumTag) : List String :=
  match tag with
  | .normal => []
  | .tagged t => ["#[serde(tag = \"" ++ t ++ "\")]"]
  | .untagged => ["#[serde(untagged)]"]

/-- The derive attribute lines written before an enum declaration: the
automatic serialization derives, the `Copy, PartialEq, Eq, Hash` derives
when the enum is copyable, then the configured global derives followed by
the derives configured for this declaration's path. -/
def enum_derive_lines (ctx : Ctx) (ty : TypeDef) (e : EnumDef) : List String :=
  ["#[derive(Serialize, Deserialize)]"] ++
  (if e.copy then ["#[derive(Copy, PartialEq, Eq, Hash)]"] else []) ++
  ctx.config.generation.global_derives.map deriveLine ++
  (path_derives ctx ty.path).map deriveLine

/-- The lines written for one type declaration (`gen_type` in `gen.rs`),
including the trailing blank line. -/
def gen_type (ctx : Ctx) (ty : TypeDef) : List String :=
  type_header ctx ty ++
  (match ty.kind with
   | .alias a => ["pub type " ++ ty.name ++ " = " ++ ctx.type_ref_name a true ++ ";"]
   | .struct s =>
       ["#[derive(Debug, Clone, Serialize, Deserialize)]",
        "pub struct " ++ ty.name ++ " \x7b"] ++
       (s.fields.map (field_lines ctx)).flatten ++
       ["\x7d"]
   | .enum e =>
       enum_derive_lines ctx ty e ++
       enum_tag_lines e.tag ++
       ["pub enum " ++ ty.name ++ " \x7b"] ++
       (e.variants.map (variant_lines ctx)).flatten ++
       ["\x7d"]) ++
  [""]

/-- Model of Rust's `str::strip_prefix` on character lists: the remainder
of the second list after the first, or `none` when the first list is not
a prefix. -/
def strip_pre : List Char → List Char → Option (List Char)
  | [], s => some s
  | _ :: _, [] => none
  | p :: ps, c :: cs => if p = c then strip_pre ps cs else none

/-- The identifier base of a method (`gen_method`, lines 204-208): the wire
name with the configured prefix stripped when it matches (Rust
`strip_prefix(...).unwrap_or(&method.name)`), the full wire name otherwise
(also when no prefix is configured). -/
def ident_base (ctx : Ctx) (m : Method) : String :=
  match ctx.config.generation.method_name_prefix with
  | some p =>
      match strip_pre p.data m.name.data with
      | some rest => String.mk rest
      | none => m.name
  | none => m.name

/-- The method-name constant block (`gen_method`, lines 210-219), emitted
only when `generation.method_name_constants` is set: a doc comment naming
the wire name, the constant, and a blank line. -/
def method_constant_lines (ctx : Ctx) (m : Method) : List String :=
  if ctx.config.generation.method_name_constants then
    ["/// `" ++ m.name ++ "`",
     "pub const " ++ screaming_snake (ident_base ctx m) ++ ": &str = \"" ++ m.name ++ "\";",
     ""]
  else []

/-- The result-alias block (`gen_method`, lines 221-246), emitted only when
`generation.result_types` is set. -/
def result_lines (ctx : Ctx) (m : Method) : List String :=
  if ctx.config.generation.result_types then
    match m.result with
    | some result =>
        (match result.documentation with
         | some doc => ["/// " ++ doc, "///"]
         | none => []) ++
        ["/// Result type of `" ++ m.name ++ "`.",
         "pub type " ++ pascal (ident_base ctx m) ++ "Result = " ++
           ctx.type_ref_name result.ty true ++ ";",
         ""]
    | none =>
        ["/// Result type of `" ++ m.name ++ "`. This method does not return anything.",
         "pub type " ++ pascal (ident_base ctx m) ++ " = ();",
         ""]
  else []

/-- Name of the generated parameter record: Pascal-cased identifier base
followed by `Params`. -/
def params_ident (ctx : Ctx) (m : Method) : String :=
  pascal (ident_base ctx m) ++ "Params"

/-- The parameter record declaration (`gen_method`, lines 248-263). -/
def param_struct_lines (ctx : Ctx) (m : Method) : List String :=
  ["/// Parameters of the `" ++ m.name ++ "` method.",
   "#[derive(Debug, Clone)]",
   "pub struct " ++ params_ident ctx m ++ " \x7b"] ++
  (m.params.map (fun p =>
    (match p.documentation with | some doc => ["    /// " ++ doc] | none => []) ++
    ["    pub " ++ p.name ++ ": " ++ ctx.type_ref_name p.ty p.required ++ ","])).flatten ++
  ["\x7d", ""]

/-- Body of the generated `serialize` function (`gen_method`, lines
275-294): the named (map) shape for `ByName` and `Either`, keyed by each
parameter's `name_in_json`; the positional (seq) shape for `ByPosition`. -/
def serialize_body (m : Method) : List String :=
  match m.param_structure with
  | .byName | .either =>
      ["        let mut map = serializer.serialize_map(None)?;"] ++
      m.params.map (fun p =>
        "        map.serialize_entry(\"" ++ p.name_in_json ++ "\", &self." ++ p.name ++ ")?;") ++
      ["        map.end()"]
  | .byPosition =>
      ["        let mut seq = serializer.serialize_seq(None)?;"] ++
      m.params.map (fun p => "        seq.serialize_element(&self." ++ p.name ++ ")?;") ++
      ["        seq.end()"]

/-- The full `impl Serialize` block (`gen_method`, lines 265-298). -/
def serialize_lines (ctx : Ctx) (m : Method) : List String :=
  ["impl Serialize for " ++ params_ident ctx m ++ " \x7b",
   "        #[allow(unused_mut)]",
   "    fn serialize<S>(&self, serializer: S) -> Result<S::Ok, S::Error>",
   "    where",
   "        S: serde::Serializer,",
   "    \x7b"] ++
  serialize_body m ++
  ["    \x7d", "\x7d", ""]

/-- The generated `visit_seq` (`gen_method`, lines 333-362): one
`next_element` per parameter in declaration order, erroring with
`invalid_length(i + 1, "expected N parameters")` when the i-th (0-based)
element is absent, then a trailing-element check erroring with
`invalid_length(N + 1, ...)`. -/
def visit_seq_lines (ctx : Ctx) (m : Method) : List String :=
  ["            #[allow(unused_mut)]",
   "            fn visit_seq<A>(self, mut seq: A) -> Result<Self::Value, A::Error>",
   "            where",
   "                A: serde::de::SeqAccess<\x27de>,",
   "            \x7b"] ++
  m.params.enum.map (fun ip =>
    "                let " ++ ip.2.name ++ ": " ++ ctx.type_ref_name ip.2.ty ip.2.required ++
    " = seq.next_element()?.ok_or_else(|| serde::de::Error::invalid_length(" ++
    toString (ip.1 + 1) ++ ", &\"expected " ++ toString m.params.length ++
    " parameters\"))?;") ++
  ["",
   "                if seq.next_element::<serde::de::IgnoredAny>()?.is_some() \x7b",
   "                    return Err(serde::de::Error::invalid_length(" ++
     toString (m.params.length + 1) ++ ", &\"expected " ++ toString m.params.length ++
     " parameters\"));",
   "                \x7d",
   "",
   "                Ok(" ++ params_ident ctx m ++ " \x7b"] ++
  m.params.map (fun p => "                    " ++ p.name ++ ",") ++
  ["                \x7d)",
   "            \x7d",
   ""]

/-- The generated `visit_map` (`gen_method`, lines 365-405): an
intermediate `Helper` record whose fields are the parameters' generated
names (`param.name`) with `#[serde(default)]` on non-required ones, then
a field-by-field copy into the public record. -/
def visit_map_lines (ctx : Ctx) (m : Method) : List String :=
  ["            #[allow(unused_variables)]",
   "            fn visit_map<A>(self, map: A) -> Result<Self::Value, A::Error>",
   "            where",
   "                A: serde::de::MapAccess<\x27de>,",
   "            \x7b",
   "                #[derive(Deserialize)]",
   "                struct Helper \x7b"] ++
  (m.params.map (fun p =>
    (if p.required then [] else ["                        #[serde(default)]"]) ++
    ["                    " ++ p.name ++ ": " ++ ctx.type_ref_name p.ty p.required ++ ","])).flatten ++
  ["                \x7d",
   "",
   "                let helper = Helper::deserialize(serde::de::value::MapAccessDeserializer::new(map))?;",
   "",
   "                Ok(" ++ params_ident ctx m ++ " \x7b"] ++
  m.params.map (fun p => "                    " ++ p.name ++ ": helper." ++ p.name ++ ",") ++
  ["                \x7d)",
   "            \x7d",
   ""]

/-- The final dispatch of the generated `deserialize` (`gen_method`, lines
410-420): map-only for `ByName`, seq-only for `ByPosition`, and
shape-directed `deserialize_any` for `Either`. -/
def dispatch_line (m : Method) : String :=
  match m.param_structure with
  | .byName => "        deserializer.deserialize_map(Visitor)"
  | .byPosition => "        deserializer.deserialize_seq(Visitor)"
  | .either => "        deserializer.deserialize_any(Visitor)"

/-- The opening lines of the generated `impl Deserialize` block
(`gen_method`, lines 300-327): the impl and `deserialize` signatures, the
`Visitor` declaration, and its `expecting` method, up to where the visit
functions are inserted. -/
def visitor_prefix_lines (ctx : Ctx) (m : Method) : List String :=
  ["impl<\x27de> Deserialize<\x27de> for " ++ params_ident ctx m ++ " \x7b",
   "    fn deserialize<D>(deserializer: D) -> Result<Self, D::Error>",
   "    where",
   "        D: serde::Deserializer<\x27de>,",
   "    \x7b",
   "        struct Visitor;",
   "",
   "        impl<\x27de> serde::de::Visitor<\x27de> for Visitor \x7b",
   "            type Value = " ++ params_ident ctx m ++ ";",
   "",
   "            fn expecting(&self, f: &mut " ++
     (if ctx.config.generation.use_core then "core" else "std") ++
     "::fmt::Formatter) -> " ++
     (if ctx.config.generation.use_core then "core" else "std") ++
     "::fmt::Result \x7b",
   "                write!(f, \"the parameters for `" ++ m.name ++ "`\")",
   "            \x7d",
   ""]

/-- The full `impl Deserialize` block (`gen_method`, lines 300-424): the
visitor carries `visit_seq` for `ByPosition` and `Either`, `visit_map` for
`ByName` and `Either`, and ends with the dispatch call. -/
def deserialize_lines (ctx : Ctx) (m : Method) : List String :=
  visitor_prefix_lines ctx m ++
  (match m.param_structure with
   | .byPosition | .either => visit_seq_lines ctx m
   | .byName => []) ++
  (match m.param_structure with
   | .byName | .either => visit_map_lines ctx m
   | .byPosition => []) ++
  ["        \x7d", ""] ++
  [dispatch_line m] ++
  ["    \x7d", "\x7d", ""]

/-- The parameter-record block of `gen_method` (lines 248-425), emitted
only when `generation.param_types` is set. -/
def param_lines (ctx : Ctx) (m : Method) : List String :=
  if ctx.config.generation.param_types then
    param_struct_lines ctx m ++ serialize_lines ctx m ++ deserialize_lines ctx m
  else []

/-- The lines written for one method (`gen_method` in `gen.rs`). -/
def gen_method (ctx : Ctx) (m : Method) : List String :=
  method_constant_lines ctx m ++ result_lines ctx m ++ param_lines ctx m

/-- The fixed provenance header written by `gen` (lines 61-74), including
the blank line from the trailing newline of the format string. -/
def header_lines : List String :=
  ["//",
   "// This file was automatically generated by openrpc-gen.",
   "//",
   "// Do not edit it manually and instead edit either the source OpenRPC document,",
   "// the configuration file, or open an issue or pull request on the openrpc-gen",
   "// GitHub repository.",
   "// ",
   "//     https://github.com/nils-mathieu/openrpc-gen",
   "//",
   ""]

/-- The import lines written by `gen` (lines 76-83): the serde import, the
`SerializeMap` import when parameter types are generated and methods
exist, the configured additional imports, and a blank line. -/
def import_lines (ctx : Ctx) : List String :=
  ["use serde::\x7bSerialize, Deserialize\x7d;"] ++
  (if ctx.config.generation.param_types && !ctx.file.methods.isEmpty then
    ["use serde::ser::SerializeMap;"]
   else []) ++
  ctx.config.generation.additional_imports.map (fun imp => "use " ++ imp ++ ";") ++
  [""]

/-- The whole generated file (`gen` in `gen.rs`): header, imports, every
type of `File.types` in insertion order, then every method in sequence
order. -/
def gen (file : File) (config : Config) : List String :=
  header_lines ++ import_lines ⟨file, config⟩ ++
  (file.types.map (fun kv => gen_type ⟨file, config⟩ kv.2)).flatten ++
  (file.methods.map (gen_method ⟨file, config⟩)).flatten

/-- Error of the generated positional parameter decoder: serde's
`invalid_length(index, expected)` as emitted by `visit_seq` (`gen.rs`
lines 341-354), carrying the index argument and the expectation
message. -/
inductive SeqDecodeError where
  | invalidLength (index : Nat) (expected : String)
  deriving DecidableEq, Repr

/-- The expectation message the generated `visit_seq` embeds in both of
its `invalid_length` calls: `expected N parameters` with `N` the number of
declared parameters. -/
def expected_msg (n : Nat) : String := "expected " ++ toString n ++ " parameters"

/-- Worker for `seqDecode`: `i` is the 1-based index the next
`invalid_length` would report (the Rust source passes `i + 1` for the
0-based position `i`), and `n` the declared parameter count used in the
messages.  Reading past the end of the sequence reports `invalid_length`
at the position of the first missing element; a non-empty remainder after
all parameters reports `invalid_length(n + 1)`. -/
def seqDecodeAux {V : Type} : List Param → List V → Nat → Nat →
    Except SeqDecodeError (List (String × V))
  | [], [], _, _ => .ok []
  | [], _ :: _, _, n => .error (.invalidLength (n + 1) (expected_msg n))
  | _ :: _, [], i, n => .error (.invalidLength i (expected_msg n))
  | p :: ps, v :: vs, i, n =>
      match seqDecodeAux ps vs (i + 1) n with
      | .ok assigns => .ok ((p.name, v) :: assigns)
      | .error e => .error e

/-- Runtime semantics of the generated `visit_seq` (`gen.rs` lines
333-362), read off the emitted code: one `seq.next_element()` per
parameter in declaration order, with
`invalid_length(i + 1, "expected N parameters")` when the element at
0-based position `i` is absent, followed by a trailing-element check that
fails with `invalid_length(N + 1, ...)`.  Wire elements are abstract
values of type `V`; a success yields the parameter assignments in
declaration order. -/
def seqDecode {V : Type} (params : List Param) (elems : List V) :
    Except SeqDecodeError (List (String × V)) :=
  seqDecodeAux params elems 1 params.length

/-- Error of the generated named parameter decoder: serde's
`missing_field`, raised by the derived `Deserialize` of the emitted
`Helper` struct for a required field whose key is absent. -/
inductive MapDecodeError where
  | missingField (name : String)
  deriving DecidableEq, Repr

/-- Runtime semantics of the generated `visit_map` (`gen.rs` lines
365-405), read off the emitted code: the `Helper` struct derives
`Deserialize`, so each of its fields is read from the incoming mapping
under the field's own identifier — which is the parameter's generated
`name`, since no serde rename attribute is emitted (`gen.rs` lines
377-390) — mapping keys matching no field are ignored (serde's default
for derived structs), a required field whose key is absent is a
missing-field error, and a `#[serde(default)]` optional field defaults
(modelled as `none`). -/
def mapDecode {V : Type} (params : List Param) (entries : List (String × V)) :
    Except MapDecodeError (List (String × Option V)) :=
  match params with
  | [] => .ok []
  | p :: ps =>
    match entries.lookup p.name with
    | some v =>
        match mapDecode ps entries with
        | .ok fields => .ok ((p.name, some v) :: fields)
        | .error e => .error e
    | none =>
        if p.required then .error (.missingField p.name)
        else
          match mapDecode ps entries with
          | .ok fields => .ok ((p.name, none) :: fields)
          | .error e => .error e

/-- Runtime semantics of the generated named encoder (`gen.rs` lines
279-287), read off the emitted code: one `map.serialize_entry` per
parameter in declaration order, keyed by the parameter's wire name
`name_in_json`, with the value taken from the record field `name`
(modelled as an assignment of abstract values to field names). -/
def mapEncode {V : Type} (params : List Param) (vals : String → V) :
    List (String × V) :=
  params.map (fun p => (p.name_in_json, vals p.name))

/-- A Rust-flavoured primitive table used for concrete instances:
`Vec<T>` arrays, `Option<T>` optionals, and the usual scalar spellings. -/
def rust_primitives : Primitives :=
  { array := "Vec<\x7b\x7d>"
    boolean := "bool"
    integer := "u64"
    null := "()"
    number := "f64"
    string := "String"
    optional := "Option<\x7b\x7d>" }

/-- A generation configuration with every option off and nothing
configured, used as the base of concrete instances. -/
def default_generation : Generation :=
  { additional_imports := []
    global_derives := []
    derives := []
    method_name_prefix := none
    method_name_constants := false
    result_types := false
    param_types := false
    use_core := false }

/-- A field-attribute hook contributing no attributes, used by the
concrete configurations. -/
def no_attributes : TypeRef → List String := fun _ => []

/-- A concrete base configuration for concrete instances. -/
def demo_config : Config :=
  { primitives := rust_primitives
    generation := default_generation
    debug_path := false
    attributes := no_attributes }

/-- The empty type graph. -/
def empty_file : File := { types := [], methods := [] }

/-- A concrete generator state over the empty file and base
configuration. -/
def demo_ctx : Ctx := { file := empty_file, config := demo_config }

/-- A type definition aliasing a dangling reference, used to show that
generation proceeds through a broken reference. -/
def ty_a : TypeDef :=
  { path := "a", name := "A", documentation := none, kind := .alias (.ref "missing") }

/-- A one-type file whose single alias points at a missing path. -/
def lookup_file : File := { types := [("a", ty_a)], methods := [] }

/-- Generator state over `lookup_file`. -/
def lookup_ctx : Ctx := { file := lookup_file, config := demo_config }

/-- A generation configuration with the `eth_` method prefix, name
constants and result aliases switched on. -/
def eth_generation : Generation :=
  { default_generation with
      method_name_prefix := some "eth_"
      method_name_constants := true
      result_types := true }

/-- Configuration carrying `eth_generation`. -/
def eth_config : Config := { demo_config with generation := eth_generation }

/-- Generator state for the `eth_`-prefixed configuration. -/
def eth_ctx : Ctx := { file := empty_file, config := eth_config }

/-- A method whose wire name carries the configured `eth_` prefix and
which declares a result. -/
def eth_method : Method :=
  { name := "eth_get_block"
    documentation := none
    params := []
    result := some { documentation := none, ty := .string }
    param_structure := .byName }

/-- A method whose wire name does not start with the configured `eth_`
prefix and which declares no result. -/
def plain_method : Method :=
  { name := "get_block"
    documentation := none
    params := []
    result := none
    param_structure := .byName }

/-- A generation configuration with one global derive directive and one
path-specific derive directive for the path `foo`. -/
def derived_generation : Generation :=
  { default_generation with
      global_derives := ["Default"]
      derives := [("foo", ["PartialOrd"])] }

/-- Configuration carrying `derived_generation`. -/
def derive_config : Config := { demo_config with generation := derived_generation }

/-- Generator state for the derive-carrying configuration. -/
def derive_ctx : Ctx := { file := empty_file, config := derive_config }

/-- A field-less struct at path `foo`, the path the configuration attaches
a derive directive to. -/
def struct_foo : TypeDef :=
  { path := "foo", name := "Foo", documentation := none, kind := .struct { fields := [] } }

/-- An alias at path `foo`. -/
def alias_foo : TypeDef :=
  { path := "foo", name := "FooAlias", documentation := none, kind := .alias .boolean }

/-- A variant-less non-copyable enum at path `foo`. -/
def enum_foo : TypeDef :=
  { path := "foo", name := "FooEnum", documentation := none
    kind := .enum { tag := .normal, variants := [], copy := false } }

/-- The copyable twin of `enum_foo`. -/
def enum_foo_copy : TypeDef :=
  { path := "foo", name := "FooEnum", documentation := none
    kind := .enum { tag := .normal, variants := [], copy := true } }

/-- A required integer parameter named `a` with matching wire name. -/
def param_a : Param :=
  { name := "a", name_in_json := "a", documentation := none, ty := .integer, required := true }

/-- A required integer parameter named `b` with matching wire name. -/
def param_b : Param :=
  { name := "b", name_in_json := "b", documentation := none, ty := .integer, required := true }

/-- A two-parameter list matching the spec's positional-length scenario. -/
def two_params : List Param := [param_a, param_b]

/-- A required parameter whose generated name `block_id` differs from its
wire name `blockId`. -/
def mismatched_param : Param :=
  { name := "block_id", name_in_json := "blockId", documentation := none
    ty := .integer, required := true }

/-- A `ByName` method carrying the name-mismatched parameter. -/
def mismatch_method : Method :=
  { name := "get_block", documentation := none, params := [mismatched_param]
    result := none, param_structure := .byName }

/-- A `ByPosition` method with two parameters. -/
def pos_method : Method :=
  { name := "pos", documentation := none, params := two_params
    result := none, param_structure := .byPosition }

/-- An `Either` method with two parameters. -/
def either_method : Method :=
  { name := "sum", documentation := none, params := two_params
    result := none, param_structure := .either }

/-- A generation configuration with parameter types switched on. -/
def pt_generation : Generation := { default_generation with param_types := true }

/-- Configuration carrying `pt_generation`. -/
def pt_config : Config := { demo_config with generation := pt_generation }

/-- Generator state for the parameter-types configuration. -/
def pt_ctx : Ctx := { file := empty_file, config := pt_config }

/-- C4: resolving any reference in a non-required position wraps the
required resolution in the configured optional template; in particular a
non-required `Array(Boolean)` is the optional template around the array
template around the boolean spelling, and with Rust-flavoured templates
this yields `Option<Vec<bool>>`, not `Vec<Option<bool>>`. -/
theorem C4_optional_wraps_required :
    (∀ (ctx : Ctx) (r : TypeRef),
      Ctx.type_ref_name ctx r false =
        string_replace ctx.config.primitives.optional slot (Ctx.type_ref_name ctx r true)) ∧
    (∀ (ctx : Ctx),
      Ctx.type_ref_name ctx (.array .boolean) false =
        string_replace ctx.config.primitives.optional slot
          (string_replace ctx.config.primitives.array slot ctx.config.primitives.boolean)) ∧
    Ctx.type_ref_name demo_ctx (.array .boolean) false = "Option<Vec<bool>>" ∧
    Ctx.type_ref_name demo_ctx (.array .boolean) false ≠ "Vec<Option<bool>>" := by
  refine ⟨fun ctx r => ?_, fun ctx => ?_, by decide, by decide⟩
  · simp [Ctx.type_ref_name]
  · simp [Ctx.type_ref_name, Ctx.type_ref_name_req]

/-- C5: a `Ref(path)` whose path is a key of `File.types` resolves to that
type definition's generated name; a dangling `Ref(path)` resolves to the
`BrokenReference` placeholder, which contains the literal path between a
fixed prefix and suffix, and generation of a file containing the dangling
reference still emits the declaration (here the alias line of `ty_a`). -/
theorem C5_ref_resolution :
    (∀ (ctx : Ctx) (path : String) (ty : TypeDef),
      ctx.file.types.lookup path = some ty →
        Ctx.type_ref_name ctx (.ref path) true = ty.name) ∧
    (∀ (ctx : Ctx) (path : String),
      ctx.file.types.lookup path = none →
        Ctx.type_ref_name ctx (.ref path) true =
          "BrokenReference /* " ++ path ++ " */" ∧
        ∃ pre post, Ctx.type_ref_name ctx (.ref path) true = pre ++ path ++ post) ∧
    "pub type A = BrokenReference /* missing */;" ∈ gen lookup_file demo_config := by
  refine ⟨fun ctx path ty h => ?_, fun ctx path h => ?_, by decide⟩
  · simp [Ctx.type_ref_name, Ctx.type_ref_name_req, h]
  · constructor
    · simp [Ctx.type_ref_name, Ctx.type_ref_name_req, h]
    · exact ⟨"BrokenReference /* ", " */", by
        simp [Ctx.type_ref_name, Ctx.type_ref_name_req, h]⟩

/-- C5 witness: the resolver evaluated through the theorem at the concrete
one-type file `lookup_file` — the present path `a` yields the generated
name `A`, and the absent path `zzz` yields the placeholder. -/
theorem C5_ref_resolution_witness :
    lookup_ctx.file.types.lookup "a" = some ty_a ∧
    Ctx.type_ref_name lookup_ctx (.ref "a") true = ty_a.name ∧
    lookup_ctx.file.types.lookup "zzz" = none ∧
    Ctx.type_ref_name lookup_ctx (.ref "zzz") true = "BrokenReference /* zzz */" :=
  ⟨by decide,
   C5_ref_resolution.1 lookup_ctx "a" ty_a (by decide),
   by decide,
   (C5_ref_resolution.2.1 lookup_ctx "zzz" (by decide)).1⟩

/-- C8: generation is a pure function of the file and the configuration —
two runs on identical inputs give identical output — and the output
decomposes as the header, the imports, the type declarations in the
insertion order of `File.types`, and the methods in sequence order. -/
theorem C8_deterministic_generation :
    ∀ (file : File) (config : Config),
      gen file config = gen file config ∧
      gen file config =
        header_lines ++ import_lines ⟨file, config⟩ ++
        (file.types.map (fun kv => gen_type ⟨file, config⟩ kv.2)).flatten ++
        (file.methods.map (gen_method ⟨file, config⟩)).flatten :=
  fun _ _ => ⟨rfl, rfl⟩

/-- C7: with name constants enabled, the emitted constant block uses the
SCREAMING-snake conversion of the identifier base as the identifier while
the string value is the full, unstripped wire name; the identifier base is
the wire name with the configured prefix stripped when it matches, and the
full wire name — with no error — when it does not.  Concretely, the method
`eth_get_block` under prefix `eth_` yields
`pub const GET_BLOCK: &str = "eth_get_block";`. -/
theorem C7_method_name_constant :
    (∀ (ctx : Ctx) (m : Method),
      ctx.config.generation.method_name_constants = true →
        method_constant_lines ctx m =
          ["/// `" ++ m.name ++ "`",
           "pub const " ++ screaming_snake (ident_base ctx m) ++ ": &str = \"" ++
             m.name ++ "\";",
           ""]) ∧
    (∀ (ctx : Ctx) (m : Method) (p : String),
      ctx.config.generation.method_name_prefix = some p →
      strip_pre p.data m.name.data = none →
        ident_base ctx m = m.name) ∧
    (∀ (ctx : Ctx) (m : Method) (p : String) (rest : List Char),
      ctx.config.generation.method_name_prefix = some p →
      strip_pre p.data m.name.data = some rest →
        ident_base ctx m = String.mk rest) ∧
    method_constant_lines eth_ctx eth_method =
      ["/// `eth_get_block`",
       "pub const GET_BLOCK: &str = \"eth_get_block\";",
       ""] := by
  refine ⟨fun ctx m h => ?_, fun ctx m p hp hs => ?_, fun ctx m p rest hp hs => ?_, by decide⟩
  · simp [method_constant_lines, h]
  · simp [ident_base, hp, hs]
  · simp [ident_base, hp, hs]

/-- C7 witness: the theorem applied at the `eth_` configuration — the
prefixed method gets its prefix stripped, the unprefixed method keeps its
full name as identifier base, and the constant block keeps the full wire
name as the value. -/
theorem C7_method_name_constant_witness :
    eth_ctx.config.generation.method_name_constants = true ∧
    method_constant_lines eth_ctx eth_method =
      ["/// `" ++ eth_method.name ++ "`",
       "pub const " ++ screaming_snake (ident_base eth_ctx eth_method) ++ ": &str = \"" ++
         eth_method.name ++ "\";",
       ""] ∧
    eth_ctx.config.generation.method_name_prefix = some "eth_" ∧
    strip_pre "eth_".data plain_method.name.data = none ∧
    ident_base eth_ctx plain_method = plain_method.name :=
  ⟨by decide,
   C7_method_name_constant.1 eth_ctx eth_method (by decide),
   by decide,
   by decide,
   C7_method_name_constant.2.1 eth_ctx plain_method "eth_" (by decide) (by decide)⟩

/-- C9: with result aliases enabled, a method that declares a result gets
an alias named by the Pascal-cased identifier base with the `Result`
suffix, equal to the resolved result type, while a method without a result
gets a unit alias named by the Pascal-cased identifier base alone, with no
`Result` suffix. -/
theorem C9_result_alias_naming :
    ∀ (ctx : Ctx) (m : Method),
      ctx.config.generation.result_types = true →
        (∀ r, m.result = some r →
          result_lines ctx m =
            (match r.documentation with
             | some doc => ["/// " ++ doc, "///"]
             | none => []) ++
            ["/// Result type of `" ++ m.name ++ "`.",
             "pub type " ++ pascal (ident_base ctx m) ++ "Result = " ++
               Ctx.type_ref_name ctx r.ty true ++ ";",
             ""]) ∧
        (m.result = none →
          result_lines ctx m =
            ["/// Result type of `" ++ m.name ++ "`. This method does not return anything.",
             "pub type " ++ pascal (ident_base ctx m) ++ " = ();",
             ""]) := by
  intro ctx m h
  constructor
  · intro r hr
    simp [result_lines, h, hr]
  · intro hr
    simp [result_lines, h, hr]

/-- C9 witness: the theorem applied at the `eth_` configuration — the
method with a result gets `GetBlockResult` aliased to the resolved string
primitive, and the method without one gets the unit alias `GetBlock`. -/
theorem C9_result_alias_naming_witness :
    eth_ctx.config.generation.result_types = true ∧
    result_lines eth_ctx eth_method =
      ["/// Result type of `eth_get_block`.",
       "pub type GetBlockResult = String;",
       ""] ∧
    result_lines eth_ctx plain_method =
      ["/// Result type of `get_block`. This method does not return anything.",
       "pub type GetBlock = ();",
       ""] := by
  refine ⟨by decide, ?_, ?_⟩
  · have h := (C9_result_alias_naming eth_ctx eth_method (by decide)).1
      { documentation := none, ty := .string } (by decide)
    rw [h]; decide
  · have h := (C9_result_alias_naming eth_ctx plain_method (by decide)).2 (by decide)
    rw [h]; decide

/-- C3 counterexample: a struct and an alias at the path `foo`, generated
under a configuration with the global derive `Default` and the
path-specific derive `PartialOrd` for `foo`, receive neither directive —
their emitted declarations contain no configured derive line at all,
refuting the claim that every type declaration (alias, struct, or enum
alike) carries the configured directives. -/
theorem C3_derives_skip_struct_and_alias :
    derive_ctx.config.generation.global_derives = ["Default"] ∧
    path_derives derive_ctx "foo" = ["PartialOrd"] ∧
    gen_type derive_ctx struct_foo =
      ["#[derive(Debug, Clone, Serialize, Deserialize)]",
       "pub struct Foo \x7b",
       "\x7d",
       ""] ∧
    deriveLine "Default" ∉ gen_type derive_ctx struct_foo ∧
    deriveLine "PartialOrd" ∉ gen_type derive_ctx struct_foo ∧
    gen_type derive_ctx alias_foo = ["pub type FooAlias = bool;", ""] ∧
    deriveLine "Default" ∉ gen_type derive_ctx alias_foo := by
  refine ⟨by decide, by decide, by decide, by decide, by decide, by decide, by decide⟩

/-- C3 as amended: only enum declarations receive the configured derive
directives.  For every enum, the global directives are emitted verbatim,
in configured order, before the path-specific ones, and after the
automatic serialization derives (and the conditional `Copy` block); alias
and struct declarations receive only their fixed automatic directives. -/
theorem C3_derives_only_on_enums :
    (∀ (ctx : Ctx) (ty : TypeDef) (e : EnumDef),
      ty.kind = .enum e →
        gen_type ctx ty =
          type_header ctx ty ++
          ["#[derive(Serialize, Deserialize)]"] ++
          (if e.copy then ["#[derive(Copy, PartialEq, Eq, Hash)]"] else []) ++
          ctx.config.generation.global_derives.map deriveLine ++
          (path_derives ctx ty.path).map deriveLine ++
          enum_tag_lines e.tag ++
          ["pub enum " ++ ty.name ++ " \x7b"] ++
          (e.variants.map (variant_lines ctx)).flatten ++
          ["\x7d", ""]) ∧
    (∀ (ctx : Ctx) (ty : TypeDef) (s : StructDef),
      ty.kind = .struct s →
        gen_type ctx ty =
          type_header ctx ty ++
          ["#[derive(Debug, Clone, Serialize, Deserialize)]",
           "pub struct " ++ ty.name ++ " \x7b"] ++
          (s.fields.map (field_lines ctx)).flatten ++
          ["\x7d", ""]) ∧
    (∀ (ctx : Ctx) (ty : TypeDef) (a : TypeRef),
      ty.kind = .alias a →
        gen_type ctx ty =
          type_header ctx ty ++
          ["pub type " ++ ty.name ++ " = " ++ Ctx.type_ref_name ctx a true ++ ";", ""]) := by
  refine ⟨fun ctx ty e h => ?_, fun ctx ty s h => ?_, fun ctx ty a h => ?_⟩
  · simp [gen_type, h, enum_derive_lines]
  · simp [gen_type, h]
  · simp [gen_type, h, Ctx.type_ref_name]

/-- C3 witness: the amended theorem applied at the concrete enum, struct
and alias fixtures under the derive-carrying configuration; the enum's
output shows `#[derive(Default)]` before `#[derive(PartialOrd)]`. -/
theorem C3_derives_only_on_enums_witness :
    struct_foo.kind = .struct { fields := [] } ∧
    alias_foo.kind = .alias .boolean ∧
    enum_foo.kind = .enum { tag := .normal, variants := [], copy := false } ∧
    gen_type derive_ctx enum_foo =
      ["#[derive(Serialize, Deserialize)]",
       "#[derive(Default)]",
       "#[derive(PartialOrd)]",
       "pub enum FooEnum \x7b",
       "\x7d",
       ""] := by
  refine ⟨by decide, by decide, by decide, ?_⟩
  have h := C3_derives_only_on_enums.1 derive_ctx enum_foo
    { tag := .normal, variants := [], copy := false } (by decide)
  rw [h]; decide

/-- C10: a copyable enum carries exactly the extra
`#[derive(Copy, PartialEq, Eq, Hash)]` directive, placed after the
serialization derives and before the configured ones; a non-copyable enum
carries no such line there, and a struct's derive block is always exactly
the fixed automatic line. -/
theorem C10_copy_derives :
    (∀ (ctx : Ctx) (ty : TypeDef) (e : EnumDef),
      ty.kind = .enum e → e.copy = true →
        gen_type ctx ty =
          type_header ctx ty ++
          ["#[derive(Serialize, Deserialize)]",
           "#[derive(Copy, PartialEq, Eq, Hash)]"] ++
          ctx.config.generation.global_derives.map deriveLine ++
          (path_derives ctx ty.path).map deriveLine ++
          enum_tag_lines e.tag ++
          ["pub enum " ++ ty.name ++ " \x7b"] ++
          (e.variants.map (variant_lines ctx)).flatten ++
          ["\x7d", ""]) ∧
    (∀ (ctx : Ctx) (ty : TypeDef) (e : EnumDef),
      ty.kind = .enum e → e.copy = false →
        gen_type ctx ty =
          type_header ctx ty ++
          ["#[derive(Serialize, Deserialize)]"] ++
          ctx.config.generation.global_derives.map deriveLine ++
          (path_derives ctx ty.path).map deriveLine ++
          enum_tag_lines e.tag ++
          ["pub enum " ++ ty.name ++ " \x7b"] ++
          (e.variants.map (variant_lines ctx)).flatten ++
          ["\x7d", ""]) ∧
    (∀ (ctx : Ctx) (ty : TypeDef) (s : StructDef),
      ty.kind = .struct s →
        gen_type ctx ty =
          type_header ctx ty ++
          ["#[derive(Debug, Clone, Serialize, Deserialize)]",
           "pub struct " ++ ty.name ++ " \x7b"] ++
          (s.fields.map (field_lines ctx)).flatten ++
          ["\x7d", ""]) := by
  refine ⟨fun ctx ty e h hc => ?_, fun ctx ty e h hc => ?_, fun ctx ty s h => ?_⟩
  · simp [gen_type, h, enum_derive_lines, hc]
  · simp [gen_type, h, enum_derive_lines, hc]
  · simp [gen_type, h]

/-- C10 witness: the theorem applied at the copyable and non-copyable enum
fixtures and the struct fixture; the copyable enum's second line is the
`Copy, PartialEq, Eq, Hash` derive, the non-copyable enum's output skips
it, and the struct keeps its fixed derive line. -/
theorem C10_copy_derives_witness :
    enum_foo_copy.kind = .enum { tag := .normal, variants := [], copy := true } ∧
    gen_type derive_ctx enum_foo_copy =
      ["#[derive(Serialize, Deserialize)]",
       "#[derive(Copy, PartialEq, Eq, Hash)]",
       "#[derive(Default)]",
       "#[derive(PartialOrd)]",
       "pub enum FooEnum \x7b",
       "\x7d",
       ""] ∧
    "#[derive(Copy, PartialEq, Eq, Hash)]" ∉ gen_type derive_ctx enum_foo ∧
    "#[derive(Copy, PartialEq, Eq, Hash)]" ∉ gen_type derive_ctx struct_foo := by
  refine ⟨by decide, ?_, ?_, ?_⟩
  · have h := C10_copy_derives.1 derive_ctx enum_foo_copy
      { tag := .normal, variants := [], copy := true } (by decide) (by decide)
    rw [h]; decide
  · have h := C10_copy_derives.2.1 derive_ctx enum_foo
      { tag := .normal, variants := [], copy := false } (by decide) (by decide)
    rw [h]; decide
  · have h := C10_copy_derives.2.2 derive_ctx struct_foo { fields := [] } (by decide)
    rw [h]; decide

/-- Invariant of `seqDecodeAux`: with `i` the 1-based report index of the
next element and `n` the declared count, equal lengths succeed with the
positional assignments, a longer sequence fails at `n + 1`, and a shorter
sequence fails at the position of the first missing element. -/
theorem seqDecodeAux_spec {V : Type} (n : Nat) :
    ∀ (ps : List Param) (vs : List V) (i : Nat),
      (vs.length = ps.length →
        seqDecodeAux ps vs i n =
          .ok ((ps.zip vs).map (fun pv => (pv.1.name, pv.2)))) ∧
      (ps.length < vs.length →
        seqDecodeAux ps vs i n = .error (.invalidLength (n + 1) (expected_msg n))) ∧
      (vs.length < ps.length →
        seqDecodeAux ps vs i n = .error (.invalidLength (i + vs.length) (expected_msg n))) := by
  intro ps
  induction ps with
  | nil =>
    intro vs i
    cases vs with
    | nil => exact ⟨fun _ => rfl, fun h => absurd h (by simp), fun h => absurd h (by simp)⟩
    | cons v vs =>
      exact ⟨fun h => absurd h (by simp), fun _ => rfl, fun h => absurd h (by simp)⟩
  | cons p ps ih =>
    intro vs i
    cases vs with
    | nil =>
      refine ⟨fun h => absurd h (by simp), fun h => absurd h (by simp), fun _ => ?_⟩
      simp [seqDecodeAux]
    | cons v vs =>
      have IH := ih vs (i + 1)
      refine ⟨fun h => ?_, fun h => ?_, fun h => ?_⟩
      · have h' : vs.length = ps.length := by simpa using h
        simp [seqDecodeAux, IH.1 h']
      · have h' : ps.length < vs.length := by simpa using h
        simp [seqDecodeAux, IH.2.1 h']
      · have h' : vs.length < ps.length := by simpa using h
        have e : i + 1 + vs.length = i + (vs.length + 1) := by omega
        simp [seqDecodeAux, IH.2.2 h', e]

/-- C2: the positional decoder read off the generated `visit_seq` reads
exactly as many elements as there are declared parameters, in declaration
order; a sequence with more elements than the N parameters fails with a
length error at index N + 1 naming `expected N parameters`, and a sequence
whose i-th (1-based) element is the first one missing fails with a length
error at index i naming the same expected count. -/
theorem C2_positional_length_validation :
    (∀ {V : Type} (params : List Param) (elems : List V),
      (elems.length = params.length →
        seqDecode params elems =
          .ok ((params.zip elems).map (fun pv => (pv.1.name, pv.2)))) ∧
      (params.length < elems.length →
        seqDecode params elems =
          .error (.invalidLength (params.length + 1) (expected_msg params.length))) ∧
      (elems.length < params.length →
        seqDecode params elems =
          .error (.invalidLength (elems.length + 1) (expected_msg params.length)))) ∧
    (∀ (ctx : Ctx) (m : Method),
      ctx.config.generation.param_types = true →
      m.param_structure = .byPosition →
        dispatch_line m = "        deserializer.deserialize_seq(Visitor)" ∧
        List.IsInfix (visit_seq_lines ctx m) (deserialize_lines ctx m)) := by
  constructor
  · intro V params elems
    have h := seqDecodeAux_spec params.length params elems 1
    refine ⟨h.1, h.2.1, fun hl => ?_⟩
    have e : 1 + elems.length = elems.length + 1 := by omega
    have := h.2.2 hl
    rw [e] at this
    exact this
  · intro ctx m _ hs
    refine ⟨by simp [dispatch_line, hs], ?_⟩
    refine ⟨visitor_prefix_lines ctx m,
      ["        \x7d", ""] ++ [dispatch_line m] ++ ["    \x7d", "\x7d", ""], ?_⟩
    simp [deserialize_lines, hs]

/-- C2 witness: the spec's two-required-parameter scenario evaluated
through the theorem — a 3-element sequence fails at index 3 naming
`expected 2 parameters`, a 1-element sequence fails at index 2, a
2-element sequence succeeds positionally, and the concrete `ByPosition`
method dispatches through `deserialize_seq`. -/
theorem C2_positional_length_validation_witness :
    (two_params.length < [(5 : Nat), 6, 7].length ∧
      seqDecode two_params [(5 : Nat), 6, 7] =
        .error (.invalidLength 3 (expected_msg 2))) ∧
    ([(5 : Nat)].length < two_params.length ∧
      seqDecode two_params [(5 : Nat)] =
        .error (.invalidLength 2 (expected_msg 2))) ∧
    ([(5 : Nat), 6].length = two_params.length ∧
      seqDecode two_params [(5 : Nat), 6] = .ok [("a", 5), ("b", 6)]) ∧
    (pos_method.param_structure = .byPosition ∧
      dispatch_line pos_method = "        deserializer.deserialize_seq(Visitor)") := by
  refine ⟨⟨by decide, ?_⟩, ⟨by decide, ?_⟩, ⟨by decide, ?_⟩, ⟨by decide, ?_⟩⟩
  · have h := (C2_positional_length_validation.1 two_params [(5 : Nat), 6, 7]).2.1 (by decide)
    rw [h]; rfl
  · have h := (C2_positional_length_validation.1 two_params [(5 : Nat)]).2.2 (by decide)
    rw [h]; rfl
  · have h := (C2_positional_length_validation.1 two_params [(5 : Nat), 6]).1 (by decide)
    rw [h]; rfl
  · exact (C2_positional_length_validation.2 pt_ctx pos_method (by decide) (by decide)).1

/-- C1: evaluation of the generated `ByName` codec at a parameter whose
generated name (`block_id`) differs from its wire name (`blockId`).  The
emitted encoder keys the entry by the wire name, but the emitted `Helper`
struct of `visit_map` declares its field under the generated name with no
serde rename attribute, so the decoder reads the mapping under `block_id`:
decoding the encoder's own output fails with a missing-field error for
`block_id`, and only a mapping keyed by the generated name decodes.  This
contradicts the claim (and the spec), for which both directions use the
wire name; the round-trip failure shows the decoder side is a slip in the
code. -/
theorem C1_byname_wire_name_mismatch :
    serialize_body mismatch_method =
      ["        let mut map = serializer.serialize_map(None)?;",
       "        map.serialize_entry(\"blockId\", &self.block_id)?;",
       "        map.end()"] ∧
    visit_map_lines demo_ctx mismatch_method =
      ["            #[allow(unused_variables)]",
       "            fn visit_map<A>(self, map: A) -> Result<Self::Value, A::Error>",
       "            where",
       "                A: serde::de::MapAccess<\x27de>,",
       "            \x7b",
       "                #[derive(Deserialize)]",
       "                struct Helper \x7b",
       "                    block_id: u64,",
       "                \x7d",
       "",
       "                let helper = Helper::deserialize(serde::de::value::MapAccessDeserializer::new(map))?;",
       "",
       "                Ok(GetBlockParams \x7b",
       "                    block_id: helper.block_id,",
       "                \x7d)",
       "            \x7d",
       ""] ∧
    mapEncode mismatch_method.params (fun _ => (0 : Nat)) = [("blockId", 0)] ∧
    mapDecode mismatch_method.params
        (mapEncode mismatch_method.params (fun _ => (0 : Nat))) =
      .error (.missingField "block_id") ∧
    mapDecode mismatch_method.params [("block_id", (0 : Nat))] =
      .ok [("block_id", some 0)] := by
  exact ⟨by decide, by decide, by decide, by rfl, by rfl⟩

/-- C6: for an `Either` method with parameter types enabled, the generated
parameter block contains the record, the encoder and the decoder; the
encoder body is exactly the named (mapping) shape keyed by wire names and
is never the positional shape; the decoder's visitor contains both the
positional `visit_seq` and the named `visit_map` blocks; and the decoder
dispatches through serde's shape-directed `deserialize_any`. -/
theorem C6_either_dual_mode :
    ∀ (ctx : Ctx) (m : Method),
      ctx.config.generation.param_types = true →
      m.param_structure = .either →
        param_lines ctx m =
          param_struct_lines ctx m ++ serialize_lines ctx m ++ deserialize_lines ctx m ∧
        serialize_body m =
          ["        let mut map = serializer.serialize_map(None)?;"] ++
          m.params.map (fun p =>
            "        map.serialize_entry(\"" ++ p.name_in_json ++ "\", &self." ++
              p.name ++ ")?;") ++
          ["        map.end()"] ∧
        serialize_body m ≠
          ["        let mut seq = serializer.serialize_seq(None)?;"] ++
          m.params.map (fun p => "        seq.serialize_element(&self." ++ p.name ++ ")?;") ++
          ["        seq.end()"] ∧
        List.IsInfix (visit_seq_lines ctx m) (deserialize_lines ctx m) ∧
        List.IsInfix (visit_map_lines ctx m) (deserialize_lines ctx m) ∧
        dispatch_line m = "        deserializer.deserialize_any(Visitor)" ∧
        dispatch_line m ∈ deserialize_lines ctx m := by
  intro ctx m hp hs
  refine ⟨by simp [param_lines, hp], by simp [serialize_body, hs], ?_, ?_, ?_, ?_, ?_⟩
  · intro h
    have hb : serialize_body m =
        "        let mut map = serializer.serialize_map(None)?;" ::
          (m.params.map (fun p =>
            "        map.serialize_entry(\"" ++ p.name_in_json ++ "\", &self." ++
              p.name ++ ")?;") ++
          ["        map.end()"]) := by
      simp [serialize_body, hs]
    rw [hb] at h
    have hhead := (List.cons.injEq _ _ _ _).mp h
    exact absurd hhead.1 (by decide)
  · refine ⟨visitor_prefix_lines ctx m,
      visit_map_lines ctx m ++ ["        \x7d", ""] ++ [dispatch_line m] ++
        ["    \x7d", "\x7d", ""], ?_⟩
    simp [deserialize_lines, hs]
  · refine ⟨visitor_prefix_lines ctx m ++ visit_seq_lines ctx m,
      ["        \x7d", ""] ++ [dispatch_line m] ++ ["    \x7d", "\x7d", ""], ?_⟩
    simp [deserialize_lines, hs]
  · simp [dispatch_line, hs]
  · simp [deserialize_lines, hs]

/-- C6 witness: the theorem applied at the concrete two-parameter `Either`
method under the parameter-types configuration, together with the
evaluated encoder body showing the named shape keyed by wire names. -/
theorem C6_either_dual_mode_witness :
    pt_ctx.config.generation.param_types = true ∧
    either_method.param_structure = .either ∧
    dispatch_line either_method = "        deserializer.deserialize_any(Visitor)" ∧
    serialize_body either_method =
      ["        let mut map = serializer.serialize_map(None)?;",
       "        map.serialize_entry(\"a\", &self.a)?;",
       "        map.serialize_entry(\"b\", &self.b)?;",
       "        map.end()"] ∧
    List.IsInfix (visit_seq_lines pt_ctx either_method)
      (deserialize_lines pt_ctx either_method) := by
  refine ⟨by decide, by decide, ?_, by decide, ?_⟩
  · exact (C6_either_dual_mode pt_ctx either_method (by decide) (by decide)).2.2.2.2.2.1
  · exact (C6_either_dual_mode pt_ctx either_method (by decide) (by decide)).2.2.2.1

end OpenrpcGen
